import Mathlib

/-! Verification development for the script front-end value-resolution layer
of this repository (torch/csrc/jit/script/init.cpp): the SugaredValue
hierarchy (PythonValue, ConstantPythonValue, MethodValue, ModuleValue) with
its attribute / call / asValue / unrolledFor semantics, and the module
membership queries exposed by the bindings. Pure C++ functions become Lean
functions; graph emission becomes explicit passing of a compilation state;
fallible code returns Except. Host (Python) objects are modelled as far as
this layer inspects them. -/

namespace TorchScriptInit

/-- A graph value (one dataflow edge), identified by a numeric id. -/
abbrev Value := Nat

/-- A keyword argument attached to a call, as in the List of Attribute
parameters in the source; the call paths of this file only inspect how many
keyword arguments there are, never their payload. -/
abbrev Attribute := String × Nat

/-- Host-side (Python) objects, modelled as far as this layer inspects them:
primitive scalars, tuples, callables, namespace (module) objects with named
members, torch.nn.Module instances, and other host objects with named
members. Identity of the allow-listed namespaces (self.is(torch)) is
modelled by the import path stored in a moduleObj. Float payloads are
carried opaquely: no floating-point arithmetic occurs in this layer. -/
inductive PyObject where
  | noneObj
  | intObj (n : Int)
  | floatObj (payload : Int)
  | boolObj (b : Bool)
  | tupleObj (elems : List PyObject)
  | funcObj (fname : String)
  | moduleObj (path : String) (members : List (String × PyObject))
  | nnModuleObj (tyName : String)
  | otherObj (tyName : String) (members : List (String × PyObject))

/-- py::isinstance of py::function on the wrapped object (callable check). -/
def PyObject.isFunction : PyObject → Bool
  | .funcObj _ => true
  | _ => false

/-- py::isinstance of py::module on the wrapped object. -/
def PyObject.isModule : PyObject → Bool
  | .moduleObj _ _ => true
  | _ => false

/-- py::isinstance against the torch.nn Module class. -/
def PyObject.isNnModule : PyObject → Bool
  | .nnModuleObj _ => true
  | _ => false

/-- py::isinstance of py::tuple. -/
def PyObject.isTuple : PyObject → Bool
  | .tupleObj _ => true
  | _ => false

/-- Whether the object is a primitive scalar (host integer, float or bool),
the cases ConstantPythonValue::asValue folds into a graph constant. -/
def PyObject.isPrimScalar : PyObject → Bool
  | .intObj _ => true
  | .floatObj _ => true
  | .boolObj _ => true
  | _ => false

/-- py::isinstance of py::int_ is PyLong_Check, which is true of host
integers and also of host booleans, since bool subclasses int on the
host side. -/
def PyObject.isPyLong : PyObject → Bool
  | .intObj _ => true
  | .boolObj _ => true
  | _ => false

/-- py::isinstance of py::float_ (PyFloat_Check): genuine floats only. -/
def PyObject.isPyFloat : PyObject → Bool
  | .floatObj _ => true
  | _ => false

/-- py::isinstance of py::bool_ (PyBool_Check): genuine booleans only. -/
def PyObject.isPyBool : PyObject → Bool
  | .boolObj _ => true
  | _ => false

/-- py::cast of the wrapped object to a host integer; a host True casts
to 1 and False to 0. -/
def PyObject.asHostInt : PyObject → Int
  | .intObj n => n
  | .boolObj b => if b then 1 else 0
  | _ => 0

/-- py::cast of the wrapped object to the host float payload. -/
def PyObject.asHostFloat : PyObject → Int
  | .floatObj f => f
  | _ => 0

/-- py::cast of the wrapped object to a host boolean. -/
def PyObject.asHostBool : PyObject → Bool
  | .boolObj b => b
  | _ => false

/-- typeString from the source: the name of the type of a host object. -/
def PyObject.typeString : PyObject → String
  | .noneObj => "NoneType"
  | .intObj _ => "int"
  | .floatObj _ => "float"
  | .boolObj _ => "bool"
  | .tupleObj _ => "tuple"
  | .funcObj _ => "function"
  | .moduleObj _ _ => "module"
  | .nnModuleObj ty => ty
  | .otherObj ty _ => ty

/-- py::repr of a host object, modelled by its type name. -/
def PyObject.reprStr (self : PyObject) : String := self.typeString

/-- Attribute lookup on a host object. Host objects are modelled with
explicit member tables on the namespace-like and plain objects this layer
traverses; a name absent from the table is an absent attribute. -/
def PyObject.getMember : PyObject → String → Option PyObject
  | .moduleObj _ members, fname => (members.find? (fun p => p.1 == fname)).map (fun p => p.2)
  | .otherObj _ members, fname => (members.find? (fun p => p.1 == fname)).map (fun p => p.2)
  | _, _ => none

/-- A named parameter registered on a module: its name, the identity of the
storage slot it owns, and the is-buffer flag. -/
structure NamedParameter where
  name : String
  slot : Nat
  is_buffer : Bool
  deriving DecidableEq

/-- The declaration part of a compiled Method: its name, its declared input
count (num_inputs) and the number of outputs of its graph. -/
structure MethodDecl where
  name : String
  num_inputs : Nat
  num_outputs : Nat
  deriving DecidableEq

/-- Modelled from the spec: the Module class (declared in module.h, outside
this file) is a hierarchical container of named submodules, named
parameters and named compiled methods, together with its external (host)
representation: the attributes visible on the cast py::object and the
explicit compile-time-constant name set stored as the attribute named
_constants_set. -/
inductive Module where
  | mk (submodules : List (String × Module))
       (params : List NamedParameter)
       (methods : List MethodDecl)
       (pyAttrs : List (String × PyObject))
       (constants : List String)

def Module.submodules : Module → List (String × Module)
  | .mk s _ _ _ _ => s

def Module.params : Module → List NamedParameter
  | .mk _ p _ _ _ => p

def Module.methods : Module → List MethodDecl
  | .mk _ _ m _ _ => m

def Module.pyAttrs : Module → List (String × PyObject)
  | .mk _ _ _ a _ => a

def Module.constants : Module → List String
  | .mk _ _ _ _ c => c

/-- Modelled from the spec: Module::find_module (module.h, outside this
file) looks up the submodule registered under the given name. -/
def Module.find_module (m : Module) (fname : String) : Option Module :=
  (m.submodules.find? (fun p => p.1 == fname)).map (fun p => p.2)

/-- Modelled from the spec: Module::find_method (module.h, outside this
file) looks up the compiled method attached under the given name. -/
def Module.find_method (m : Module) (fname : String) : Option MethodDecl :=
  m.methods.find? (fun p => p.name == fname)

/-- Modelled from the spec: Module::find_parameter (module.h, outside this
file) looks up the parameter registered under the given name. -/
def Module.find_parameter (m : Module) (fname : String) : Option NamedParameter :=
  m.params.find? (fun p => p.name == fname)

/-- Lookup of an attribute on the external (host) representation of the
module: py::getattr(py_module, field, py::none()) with presence reported
through Option. -/
def Module.lookupPyAttr (m : Module) (fname : String) : Option PyObject :=
  (m.pyAttrs.find? (fun p => p.1 == fname)).map (fun p => p.2)

/-- A zero-dimensional tensor constant as produced by
at::CPU(kind).scalarTensor(value): an element kind paired with the held
scalar. The 32-bit cast in the integer case is modelled by toInt32 below;
the float payload is carried opaquely. -/
inductive ScalarTensor where
  | intScalar (n : Int)
  | floatScalar (payload : Int)
  | byteScalar (b : Bool)
  deriving DecidableEq

/-- The py::cast to a 32-bit signed integer performed on the way into an
integer scalar constant, modelled as wrap-around into the signed 32-bit
range; on every value representable in 32 bits it is the identity. -/
def toInt32 (n : Int) : Int := (n + 2147483648) % 4294967296 - 2147483648

/-- Nodes of the graph intermediate representation, as far as this layer
creates them. Each carries the source location it was tagged with. -/
inductive GNode where
  | pythonOp (loc : Nat) (obj : PyObject) (cconv : List Char)
      (inputs : List Value) (outputs : List Value)
  | builtinCall (loc : Nat) (bname : String)
      (inputs : List Value) (outputs : List Value)
  | inlinedCall (loc : Nat) (methodName : String)
      (inputs : List Value) (outputs : List Value)
  | constantNode (loc : Nat) (val : ScalarTensor) (output : Value)

/-- The state of the method under compilation (the caller Method together
with its Graph): a fresh-value counter, the emitted nodes in order, and the
parameter slots already registered as graph inputs with the graph value
each one was given. -/
structure CompState where
  nextValue : Nat
  nodes : List GNode
  memberInputs : List (Nat × Value)

/-- A compilation failure: ErrorReport carries the source location and the
streamed human-readable message. -/
structure ErrorReport where
  loc : Nat
  msg : String
  deriving DecidableEq

/-- The message streamed by PythonValue::call on keyword arguments. -/
def pyKwMsg : String := "keyword arguments in Python calls aren\x27t supported"

/-- The message streamed by MethodValue::call on keyword arguments. -/
def methodKwMsg : String := "not yet implemented - calls to python functions using keyword arguments"

/-- Modelled from the spec: the default SugaredValue::call failure (declared
in the compiler headers, outside this file) reports that the value is not
callable. -/
def notCallableMsg : String := "not callable"

/-- Modelled from the spec: the default SugaredValue::asValue failure
(declared in the compiler headers, outside this file). -/
def defaultAsValueMsg : String := "cannot be used as a value"

/-- Modelled from the spec: the default SugaredValue::unrolledFor failure
(declared in the compiler headers, outside this file). -/
def notIterableMsg : String := "not iterable at compile time"

/-- The message of the final failure of ModuleValue::attr (line 199). The
statement that would emit it is dead code: py::getattr with the py::none()
default never returns a null object, and the conversion of py::object to
bool tests the pointer for null, so the branch guarded by it at line 189
is always taken. The message is kept because the claims quote it. -/
def noAttrMsg (field : String) : String :=
  "module has no attribute \x27" ++ field ++ "\x27"

/-- The message of the not-declared-constant failure of ModuleValue::attr. -/
def notUsableMsg (field : String) (ty : String) : String :=
  "attribute \x27" ++ field ++ "\x27 of type \x27" ++ ty ++
    "\x27 is not usable in a script method (did you forget to add it __constants__?)"

/-- The message of the failure of PythonValue::getattr. -/
def objNoAttrMsg (fname : String) : String := "object has no attribute " ++ fname

/-- The message of the fall-through failure of PythonValue::attr. -/
def unsupportedLookupMsg (self : PyObject) : String :=
  "unsupported attribute lookup on " ++ self.reprStr ++ "."

/-- The message streamed by ensureSizeMatches on a mismatch. -/
def sizeMismatchMsg (expected : Nat) (what : String) (actual : Nat) : String :=
  "expected " ++ toString expected ++ " " ++ what ++ " but found " ++ toString actual

/-- ensureSizeMatches from the source: fails with an arity error naming
expected vs. actual whenever the two counts differ. -/
def ensureSizeMatches (loc : Nat) (expected : Nat) (actual : Nat) (what : String) :
    Except ErrorReport Unit :=
  if expected ≠ actual then .error ⟨loc, sizeMismatchMsg expected what actual⟩
  else .ok ()

/-- The SugaredValue variants this layer constructs: graph-native values
(SimpleValue), external values (PythonValue), constant values
(ConstantPythonValue), builtin functions, bound methods (MethodValue, which
keeps the owning module alive) and structural containers (ModuleValue). -/
inductive SugaredValue where
  | simple (v : Value)
  | python (obj : PyObject)
  | constant (obj : PyObject)
  | builtin (bname : String)
  | methodVal (owner : Module) (method : MethodDecl)
  | moduleVal (mod : Module)

/-- PythonValue::call: rejects keyword arguments, then inserts one
PythonOp node carrying the host object, a per-input tag string of the
letter t, the given inputs, and n_outputs fresh outputs, returned in
order. -/
def PythonValue.call (loc : Nat) (s : CompState) (self : PyObject)
    (inputs : List Value) (attrs : List Attribute) (nouts : Nat) :
    Except ErrorReport (List Value × CompState) :=
  if attrs.length > 0 then .error ⟨loc, pyKwMsg⟩
  else
    let outputs := (List.range nouts).map (fun i => s.nextValue + i)
    .ok (outputs, ⟨s.nextValue + nouts,
      s.nodes ++ [.pythonOp loc self (List.replicate inputs.length 't') inputs outputs],
      s.memberInputs⟩)

/-- Modelled from the spec: BuiltinFunction (declared in the compiler
headers, outside this file) has the same call semantics as an external
value: it rejects keyword arguments and emits one call node returning the
requested number of fresh outputs in order. -/
def BuiltinFunction.call (loc : Nat) (s : CompState) (bname : String)
    (inputs : List Value) (attrs : List Attribute) (nouts : Nat) :
    Except ErrorReport (List Value × CompState) :=
  if attrs.length > 0 then .error ⟨loc, pyKwMsg⟩
  else
    let outputs := (List.range nouts).map (fun i => s.nextValue + i)
    .ok (outputs, ⟨s.nextValue + nouts,
      s.nodes ++ [.builtinCall loc bname inputs outputs],
      s.memberInputs⟩)

/-- Modelled from the spec: Method::emit_call_to (declared in the compiler
headers, outside this file) emits an inlined call from the enclosing
compilation context to the target method with the given inputs and returns
the callee outputs: one fresh graph value per declared callee output, in
order. -/
def emit_call_to (s : CompState) (callee : MethodDecl) (loc : Nat)
    (inputs : List Value) : List Value × CompState :=
  let outputs := (List.range callee.num_outputs).map (fun i => s.nextValue + i)
  (outputs, ⟨s.nextValue + callee.num_outputs,
    s.nodes ++ [.inlinedCall loc callee.name inputs outputs],
    s.memberInputs⟩)

/-- MethodValue::call: rejects keyword arguments, checks the supplied input
count against the declared input count of the target method, emits the
inlined call, checks the produced output count against n_outputs, and
returns the outputs in order. -/
def MethodValue.call (loc : Nat) (s : CompState) (method : MethodDecl)
    (inputs : List Value) (attrs : List Attribute) (nouts : Nat) :
    Except ErrorReport (List Value × CompState) :=
  if attrs.length ≠ 0 then .error ⟨loc, methodKwMsg⟩
  else
    match ensureSizeMatches loc method.num_inputs inputs.length "inputs" with
    | .error e => .error e
    | .ok _ =>
      let res := emit_call_to s method loc inputs
      match ensureSizeMatches loc res.1.length nouts "outputs" with
      | .error e => .error e
      | .ok _ => .ok res

/-- Modelled from the spec: Method::get_or_add_parameter (method.h, outside
this file) registers the parameter slot as a graph input of the method
under compilation, reusing the input already created for that slot when one
exists, and returns the graph value of that input. -/
def get_or_add_parameter (s : CompState) (slot : Nat) : Value × CompState :=
  match s.memberInputs.lookup slot with
  | some v => (v, s)
  | none => (s.nextValue, ⟨s.nextValue + 1, s.nodes, s.memberInputs ++ [(slot, s.nextValue)]⟩)

/-- The external-representation arm of ModuleValue::attr (reached only when
the submodule, method and parameter lookups all failed).
py::getattr(py_module, field, py::none()) returns the py::none() default,
a non-null object, when the attribute is absent, and the conversion of
py::object to bool at line 189 tests the pointer for null rather than host
truthiness, so the guarded branch is entered unconditionally and an absent
attribute flows through as None: a present attribute that is callable or
an nn.Module instance is wrapped as a PythonValue; else, if the field is
in the _constants_set of the module, the attribute (possibly None) is
wrapped as a ConstantPythonValue; else attr fails naming the unusable
type (NoneType when the attribute was absent). The trailing no-attribute
failure of line 199 is unreachable and has no arm here. -/
def moduleExternalAttr (loc : Nat) (s : CompState) (m : Module) (field : String) :
    Except ErrorReport (SugaredValue × CompState) :=
  let a := (m.lookupPyAttr field).getD .noneObj
  if a.isFunction || a.isNnModule then .ok (.python a, s)
  else if m.constants.contains field then .ok (.constant a, s)
  else .error ⟨loc, notUsableMsg field a.typeString⟩

/-- ModuleValue::attr: first-match precedence submodule, then method, then
parameter (registered as a graph input), and only then the external
representation of the module. -/
def ModuleValue.attr (loc : Nat) (s : CompState) (m : Module) (field : String) :
    Except ErrorReport (SugaredValue × CompState) :=
  match m.find_module field with
  | some sub => .ok (.moduleVal sub, s)
  | none =>
    match m.find_method field with
    | some meth => .ok (.methodVal m meth, s)
    | none =>
      match m.find_parameter field with
      | some p =>
        let r := get_or_add_parameter s p.slot
        .ok (.simple r.1, r.2)
      | none => moduleExternalAttr loc s m field

/-- isBuiltinModule from the source: the wrapped object is (by identity)
the torch namespace or the torch.nn.functional namespace; identity of
those allow-listed namespaces is modelled by their import path. -/
def isBuiltinModule : PyObject → Bool
  | .moduleObj path _ => path == "torch" || path == "torch.nn.functional"
  | _ => false

/-- PythonValue::getattr: looks up a member of the wrapped host object; a
failed host lookup becomes a located error. -/
def pyGetattr (loc : Nat) (self : PyObject) (fname : String) :
    Except ErrorReport PyObject :=
  match self.getMember fname with
  | some mem => .ok mem
  | none => .error ⟨loc, objNoAttrMsg fname⟩

/-- PythonValue::attr: fetches the member, returns a BuiltinFunction when
the wrapped object is an allow-listed namespace and the member is callable,
a new PythonValue when both the wrapped object and the member are namespace
objects, and fails with the unsupported-lookup message otherwise. -/
def PythonValue.attr (loc : Nat) (self : PyObject) (field : String) :
    Except ErrorReport SugaredValue :=
  match pyGetattr loc self field with
  | .error e => .error e
  | .ok member =>
    if isBuiltinModule self && member.isFunction then .ok (.builtin field)
    else if self.isModule && member.isModule then .ok (.python member)
    else .error ⟨loc, unsupportedLookupMsg self⟩

/-- createConstant from the source: inserts one constant node holding the
scalar tensor and returns its output value. -/
def createConstant (loc : Nat) (s : CompState) (val : ScalarTensor) :
    Value × CompState :=
  (s.nextValue, ⟨s.nextValue + 1, s.nodes ++ [.constantNode loc val s.nextValue],
    s.memberInputs⟩)

/-- ConstantPythonValue::asValue, with the three isinstance guards in
source order. The first guard, py::isinstance of py::int_, is
PyLong_Check and therefore also accepts host booleans, so a wrapped bool
takes the integer branch and is folded into a kInt constant holding 1 or
0; the kByte branch below is textually present as in the source but
unreachable for genuine booleans. Every other wrapped object falls
through to PythonValue::asValue, which is the inherited default failure
(modelled from the spec, since the default lives in the compiler headers
outside this file). -/
def ConstantPythonValue.asValue (loc : Nat) (s : CompState) (self : PyObject) :
    Except ErrorReport (Value × CompState) :=
  if self.isPyLong then
    .ok (createConstant loc s (.intScalar (toInt32 self.asHostInt)))
  else if self.isPyFloat then
    .ok (createConstant loc s (.floatScalar self.asHostFloat))
  else if self.isPyBool then
    .ok (createConstant loc s (.byteScalar self.asHostBool))
  else .error ⟨loc, defaultAsValueMsg⟩

/-- ConstantPythonValue::unrolledFor: a wrapped tuple expands into one
ConstantPythonValue per element in order; every other wrapped object falls
through to the inherited default failure (modelled from the spec, since
the default lives in the compiler headers outside this file). -/
def ConstantPythonValue.unrolledFor (loc : Nat) (self : PyObject) :
    Except ErrorReport (List SugaredValue) :=
  match self with
  | .tupleObj elems => .ok (elems.map SugaredValue.constant)
  | _ => .error ⟨loc, notIterableMsg⟩

/-- The _has_parameter binding: a parameter registered under the name
exists and its is-buffer flag is false. -/
def Module.has_parameter (m : Module) (pname : String) : Bool :=
  match m.find_parameter pname with
  | some r => !r.is_buffer
  | none => false

/-- The _has_buffer binding: a parameter registered under the name exists
and its is-buffer flag is true. -/
def Module.has_buffer (m : Module) (pname : String) : Bool :=
  match m.find_parameter pname with
  | some r => r.is_buffer
  | none => false

mutual

/-- The structural size of a module tree (used only as a termination
measure: each submodule is strictly smaller than its parent). -/
def Module.size : Module → Nat
  | .mk subs _ _ _ _ => 1 + subsSize subs

def subsSize : List (String × Module) → Nat
  | [] => 0
  | p :: rest => 1 + Module.size p.2 + subsSize rest

end

/-- The termination measure for SugaredValue.call: only the container
(module) arm recurses, and only into the value that attr on the name
forward produced. -/
def svCallWeight : SugaredValue → Nat
  | .moduleVal m => m.size + 1
  | _ => 0

/-- Dynamic dispatch of call over the SugaredValue variants. SimpleValue
keeps the default (modelled from the spec: the default call in the
compiler headers fails as not callable); ConstantPythonValue inherits the
PythonValue call; ModuleValue::call resolves attr on the name forward and
invokes call on the result with the same arguments, exactly as in the
source. -/
def SugaredValue.call (loc : Nat) (s : CompState) (sv : SugaredValue)
    (inputs : List Value) (attrs : List Attribute) (nouts : Nat) :
    Except ErrorReport (List Value × CompState) :=
  match sv with
  | .simple _ => .error ⟨loc, notCallableMsg⟩
  | .python obj => PythonValue.call loc s obj inputs attrs nouts
  | .constant obj => PythonValue.call loc s obj inputs attrs nouts
  | .builtin bname => BuiltinFunction.call loc s bname inputs attrs nouts
  | .methodVal _ method => MethodValue.call loc s method inputs attrs nouts
  | .moduleVal m =>
    match h : ModuleValue.attr loc s m "forward" with
    | .error e => .error e
    | .ok r => SugaredValue.call loc r.2 r.1 inputs attrs nouts
termination_by svCallWeight sv
decreasing_by
  simp_wf
  obtain ⟨sv', s'⟩ := r
  have key : ∀ (l : List (String × Module)) (p : String × Module),
      p ∈ l → Module.size p.2 < 1 + subsSize l := by
    intro l
    induction l with
    | nil => intro p hp; cases hp
    | cons q rest ih =>
      intro p hp
      rcases List.mem_cons.mp hp with h1 | h2
      · subst h1; simp only [subsSize]; omega
      · have := ih p h2; simp only [subsSize]; omega
  have hfm : ∀ m', sv' = .moduleVal m' → m.find_module "forward" = some m' := by
    intro m' hm'
    subst hm'
    unfold ModuleValue.attr at h
    split at h
    · simp_all
    · split at h
      · simp_all
      · split at h
        · simp_all
        · simp only [moduleExternalAttr] at h
          split at h
          · simp_all
          · split at h
            · simp_all
            · simp_all
  cases hv : sv' with
  | moduleVal m' =>
    have hlt : Module.size m' < Module.size m := by
      have hfind := hfm m' hv
      cases m with
      | mk subs params meths pats consts =>
        unfold Module.find_module at hfind
        rcases Option.map_eq_some'.mp hfind with ⟨p, hp, hp2⟩
        have hmem := List.mem_of_find?_eq_some hp
        have hsz := key subs p hmem
        rw [hp2] at hsz
        simp only [Module.size]
        omega
    simp only [svCallWeight]
    omega
  | simple v => simp only [svCallWeight]; omega
  | python obj => simp only [svCallWeight]; omega
  | constant obj => simp only [svCallWeight]; omega
  | builtin bname => simp only [svCallWeight]; omega
  | methodVal o meth => simp only [svCallWeight]; omega

/-- The call behavior the spec ascribes to a structural-container value:
resolve attr on the name forward, then invoke call on the result with the
same argument values, keyword arguments and expected output count. -/
def moduleCallSpec (loc : Nat) (s : CompState) (m : Module)
    (inputs : List Value) (attrs : List Attribute) (nouts : Nat) :
    Except ErrorReport (List Value × CompState) :=
  match ModuleValue.attr loc s m "forward" with
  | .error e => .error e
  | .ok r => SugaredValue.call loc r.2 r.1 inputs attrs nouts

/-- The empty compilation state used by the concrete witnesses. -/
def initState : CompState := ⟨0, [], []⟩

/-- A module with no registrations and no host attributes. -/
def emptyModule : Module := .mk [] [] [] [] []

/-- A submodule used by the precedence witness. -/
def demoSub : Module := .mk [] [] [] [] []

/-- A method declared with 2 inputs and 2 outputs. -/
def demoMethod : MethodDecl := ⟨"forward", 2, 2⟩

/-- A module on which the name layer1 is simultaneously a submodule, a
method, a parameter and a host attribute, exercising the precedence. -/
def demoModule : Module :=
  .mk [("layer1", demoSub)] [⟨"layer1", 0, false⟩] [⟨"layer1", 1, 1⟩]
    [("layer1", .intObj 9)] []

/-- A module whose host representation exposes a data attribute alpha not
in the constant name set and a data attribute beta in it. -/
def demoConstModule : Module :=
  .mk [] [] [] [("alpha", .otherObj "Foo" []), ("beta", .intObj 4)] ["beta"]

/-- A module with one true parameter and one buffer registered. -/
def demoParamModule : Module :=
  .mk [] [⟨"weight", 0, false⟩, ⟨"running_mean", 1, true⟩] [] [] []

/-- A module with no registrations and no host attributes whose constant
name set nevertheless lists the name foo. -/
def demoNoneConstModule : Module := .mk [] [] [] [] ["foo"]

theorem call_moduleVal_unfold (loc : Nat) (s : CompState) (m : Module)
    (inputs : List Value) (attrs : List Attribute) (nouts : Nat) :
    SugaredValue.call loc s (.moduleVal m) inputs attrs nouts =
      match ModuleValue.attr loc s m "forward" with
      | .error e => .error e
      | .ok r => SugaredValue.call loc r.2 r.1 inputs attrs nouts := by
  rw [SugaredValue.call]
  split <;> simp_all

theorem call_methodVal_unfold (loc : Nat) (s : CompState) (owner : Module)
    (method : MethodDecl) (inputs : List Value) (attrs : List Attribute) (nouts : Nat) :
    SugaredValue.call loc s (.methodVal owner method) inputs attrs nouts =
      MethodValue.call loc s method inputs attrs nouts := by
  rw [SugaredValue.call]

theorem call_python_unfold (loc : Nat) (s : CompState) (obj : PyObject)
    (inputs : List Value) (attrs : List Attribute) (nouts : Nat) :
    SugaredValue.call loc s (.python obj) inputs attrs nouts =
      PythonValue.call loc s obj inputs attrs nouts := by
  rw [SugaredValue.call]

theorem call_constant_unfold (loc : Nat) (s : CompState) (obj : PyObject)
    (inputs : List Value) (attrs : List Attribute) (nouts : Nat) :
    SugaredValue.call loc s (.constant obj) inputs attrs nouts =
      PythonValue.call loc s obj inputs attrs nouts := by
  rw [SugaredValue.call]

theorem call_builtin_unfold (loc : Nat) (s : CompState) (bname : String)
    (inputs : List Value) (attrs : List Attribute) (nouts : Nat) :
    SugaredValue.call loc s (.builtin bname) inputs attrs nouts =
      BuiltinFunction.call loc s bname inputs attrs nouts := by
  rw [SugaredValue.call]

theorem call_simple_unfold (loc : Nat) (s : CompState) (v : Value)
    (inputs : List Value) (attrs : List Attribute) (nouts : Nat) :
    SugaredValue.call loc s (.simple v) inputs attrs nouts =
      .error ⟨loc, notCallableMsg⟩ := by
  rw [SugaredValue.call]

theorem lookup_append_single {l : List (Nat × Value)} {k : Nat} {v : Value}
    (h : l.lookup k = none) : (l ++ [(k, v)]).lookup k = some v := by
  induction l with
  | nil => simp [List.lookup]
  | cons q rest ih =>
    obtain ⟨a, b⟩ := q
    by_cases hk : k = a
    · subst hk
      simp [List.lookup] at h
    · have hba : (k == a) = false := beq_eq_false_iff_ne.mpr hk
      simp only [List.cons_append, List.lookup, hba] at h ⊢
      exact ih h

/-- C9: invoking call on a structural-container value produces exactly the
same result as first resolving attr on the name forward and invoking call
on the resolved value with the same argument values, keyword arguments and
expected output count. -/
theorem moduleValue_call_refines_spec (loc : Nat) (s : CompState) (m : Module)
    (inputs : List Value) (attrs : List Attribute) (nouts : Nat) :
    SugaredValue.call loc s (.moduleVal m) inputs attrs nouts =
      moduleCallSpec loc s m inputs attrs nouts := by
  rw [call_moduleVal_unfold]
  rfl

/-- C3: a bound-method call with an empty keyword set fails with the arity
error naming expected vs. actual whenever the supplied input count differs
from the declared input count of the target method; after emitting the
inlined call it fails with the same arity-error kind whenever the produced
output count differs from the expected output count; and when both counts
match it returns the outputs of the emitted call in order. -/
theorem methodValue_call_arity (loc : Nat) (s : CompState) (owner : Module)
    (method : MethodDecl) (inputs : List Value) (nouts : Nat) :
    (inputs.length ≠ method.num_inputs →
      SugaredValue.call loc s (.methodVal owner method) inputs [] nouts =
        .error ⟨loc, sizeMismatchMsg method.num_inputs "inputs" inputs.length⟩)
  ∧ (inputs.length = method.num_inputs → method.num_outputs ≠ nouts →
      SugaredValue.call loc s (.methodVal owner method) inputs [] nouts =
        .error ⟨loc, sizeMismatchMsg method.num_outputs "outputs" nouts⟩)
  ∧ (inputs.length = method.num_inputs → method.num_outputs = nouts →
      SugaredValue.call loc s (.methodVal owner method) inputs [] nouts =
        .ok (emit_call_to s method loc inputs)) := by
  refine ⟨?_, ?_, ?_⟩
  · intro h1
    have h1' : method.num_inputs ≠ inputs.length := fun hh => h1 hh.symm
    rw [call_methodVal_unfold]
    simp [MethodValue.call, ensureSizeMatches, h1']
  · intro h1 h2
    have h1' : ¬method.num_inputs ≠ inputs.length := by omega
    rw [call_methodVal_unfold]
    simp [MethodValue.call, ensureSizeMatches, h1', emit_call_to, h2]
  · intro h1 h2
    have h1' : ¬method.num_inputs ≠ inputs.length := by omega
    rw [call_methodVal_unfold]
    simp [MethodValue.call, ensureSizeMatches, h1', emit_call_to, h2]

/-- Witness for C3 at the concrete inputs of the spec example: a method
declared with 2 inputs and 2 outputs, called once with 3 inputs and once
with 2 inputs while requesting 1 output. -/
theorem methodValue_call_arity_witness :
    SugaredValue.call 0 initState (.methodVal emptyModule demoMethod) [10, 11, 12] [] 2 =
      .error ⟨0, "expected 2 inputs but found 3"⟩ ∧
    SugaredValue.call 0 initState (.methodVal emptyModule demoMethod) [10, 11] [] 1 =
      .error ⟨0, "expected 2 outputs but found 1"⟩ := by
  constructor
  · exact (methodValue_call_arity 0 initState emptyModule demoMethod [10, 11, 12] 2).1
      (by decide)
  · exact (methodValue_call_arity 0 initState emptyModule demoMethod [10, 11] 1).2.1
      (by decide) (by decide)

/-- C1: attr on a structural-container value follows the fixed first-match
precedence: an existing submodule is returned as a structural-container
value with the state untouched (methods, parameters and the external
representation are never consulted); otherwise an existing method yields a
bound-method value pairing this module with it; otherwise an existing
parameter is registered as a graph input and returned as a graph-native
value; and only when all three lookups fail is the external representation
of the module consulted. -/
theorem moduleValue_attr_precedence (loc : Nat) (s : CompState) (m : Module)
    (field : String) :
    (∀ sub, m.find_module field = some sub →
      ModuleValue.attr loc s m field = .ok (.moduleVal sub, s))
  ∧ (m.find_module field = none → ∀ meth, m.find_method field = some meth →
      ModuleValue.attr loc s m field = .ok (.methodVal m meth, s))
  ∧ (m.find_module field = none → m.find_method field = none →
      ∀ p, m.find_parameter field = some p →
      ModuleValue.attr loc s m field =
        .ok (.simple (get_or_add_parameter s p.slot).1, (get_or_add_parameter s p.slot).2) ∧
      ((get_or_add_parameter s p.slot).2).memberInputs.lookup p.slot =
        some (get_or_add_parameter s p.slot).1)
  ∧ (m.find_module field = none → m.find_method field = none →
      m.find_parameter field = none →
      ModuleValue.attr loc s m field = moduleExternalAttr loc s m field) := by
  refine ⟨?_, ?_, ?_, ?_⟩
  · intro sub h1
    unfold ModuleValue.attr
    rw [h1]
  · intro h1 meth h2
    unfold ModuleValue.attr
    rw [h1, h2]
  · intro h1 h2 p h3
    constructor
    · unfold ModuleValue.attr
      rw [h1, h2, h3]
    · cases hl : s.memberInputs.lookup p.slot with
      | some v => simp [get_or_add_parameter, hl]
      | none => simp [get_or_add_parameter, hl, lookup_append_single hl]
  · intro h1 h2 h3
    unfold ModuleValue.attr
    rw [h1, h2, h3]

/-- Witness for C1: on a module where the name layer1 is simultaneously a
submodule, a method, a parameter and a host attribute, attr returns the
structural-container value wrapping the submodule. -/
theorem moduleValue_attr_precedence_witness :
    ModuleValue.attr 0 initState demoModule "layer1" =
      .ok (.moduleVal demoSub, initState) :=
  (moduleValue_attr_precedence 0 initState demoModule "layer1").1 demoSub rfl

/-- C2 (code bug): on a module where no submodule, method, parameter or
host attribute is named foo, attr does not fail with the dead line-199
message the claim quotes. The py::none() default of py::getattr is
non-null and py::object converts to bool by a null-pointer test, so the
absent attribute flows through line 189 as None and attr fails with the
NoneType not-usable message instead; and when foo is listed in the
constant name set, attr even succeeds with a constant value wrapping
None. -/
theorem moduleValue_attr_missing_code_bug :
    ModuleValue.attr 0 initState emptyModule "foo" =
      .error ⟨0, notUsableMsg "foo" "NoneType"⟩ ∧
    notUsableMsg "foo" "NoneType" ≠ noAttrMsg "foo" ∧
    ModuleValue.attr 0 initState demoNoneConstModule "foo" =
      .ok (.constant .noneObj, initState) :=
  ⟨rfl, by decide, rfl⟩

/-- C5: when the submodule, method and parameter lookups all fail but the
external representation exposes an attribute that is neither callable nor
module-like, attr fails with the message naming the unusable type unless
the field is in the compile-time-constant name set, in which case it
returns a constant value wrapping the attribute. -/
theorem moduleValue_attr_constants (loc : Nat) (s : CompState) (m : Module)
    (field : String) (a : PyObject)
    (h1 : m.find_module field = none) (h2 : m.find_method field = none)
    (h3 : m.find_parameter field = none) (h4 : m.lookupPyAttr field = some a)
    (h5 : a.isFunction = false) (h6 : a.isNnModule = false) :
    (m.constants.contains field = false →
      ModuleValue.attr loc s m field =
        .error ⟨loc, notUsableMsg field a.typeString⟩)
  ∧ (m.constants.contains field = true →
      ModuleValue.attr loc s m field = .ok (.constant a, s)) := by
  constructor
  · intro hc
    have hc' : field ∉ m.constants := by simpa using hc
    unfold ModuleValue.attr moduleExternalAttr
    rw [h1, h2, h3, h4]
    simp [h5, h6, hc']
  · intro hc
    have hc' : field ∈ m.constants := by simpa using hc
    unfold ModuleValue.attr moduleExternalAttr
    rw [h1, h2, h3, h4]
    simp [h5, h6, hc']

/-- Witness for C5: the host data attribute alpha outside the constant set
is rejected naming its type, and the host data attribute beta inside the
constant set comes back as a constant value. -/
theorem moduleValue_attr_constants_witness :
    ModuleValue.attr 0 initState demoConstModule "alpha" =
      .error ⟨0, notUsableMsg "alpha" "Foo"⟩ ∧
    ModuleValue.attr 0 initState demoConstModule "beta" =
      .ok (.constant (.intObj 4), initState) := by
  constructor
  · exact (moduleValue_attr_constants 0 initState demoConstModule "alpha"
      (.otherObj "Foo" []) rfl rfl rfl rfl rfl rfl).1 rfl
  · exact (moduleValue_attr_constants 0 initState demoConstModule "beta"
      (.intObj 4) rfl rfl rfl rfl rfl rfl).2 rfl

/-- Counterexample to C4 as stated: a structural-container value is also a
SugaredValue variant, yet a call carrying one keyword argument on a module
with nothing named forward fails while resolving attr on forward — with
the NoneType not-usable message, since the absent host attribute flows
through line 189 as None — and not with a keyword-arguments message. -/
theorem call_keyword_args_counterexample :
    SugaredValue.call 0 initState (.moduleVal emptyModule) [] [("k", 0)] 1 =
      .error ⟨0, notUsableMsg "forward" "NoneType"⟩ ∧
    notUsableMsg "forward" "NoneType" ≠ pyKwMsg ∧
    notUsableMsg "forward" "NoneType" ≠ methodKwMsg := by
  refine ⟨?_, by decide, by decide⟩
  rw [call_moduleVal_unfold]
  rfl

/-- C4 (amended): every variant that itself implements call rejects a
non-empty keyword-argument set with its keyword-arguments error (external,
constant and builtin-function values with the Python-call message, bound
methods with the not-yet-implemented message, both before any other
check); the graph-native variant fails with the default not-callable
error; and a structural-container value forwards the call to the value
attr resolves for the name forward, so it fails with that keyword error
whenever forward resolves to a bound method, but can fail with an
attribute-resolution error instead. -/
theorem call_keyword_args_amended (loc : Nat) (s : CompState)
    (inputs : List Value) (attrs : List Attribute) (nouts : Nat)
    (h : attrs ≠ []) :
    (∀ obj, SugaredValue.call loc s (.python obj) inputs attrs nouts =
      .error ⟨loc, pyKwMsg⟩)
  ∧ (∀ obj, SugaredValue.call loc s (.constant obj) inputs attrs nouts =
      .error ⟨loc, pyKwMsg⟩)
  ∧ (∀ bname, SugaredValue.call loc s (.builtin bname) inputs attrs nouts =
      .error ⟨loc, pyKwMsg⟩)
  ∧ (∀ owner method, SugaredValue.call loc s (.methodVal owner method) inputs attrs nouts =
      .error ⟨loc, methodKwMsg⟩)
  ∧ (∀ v, SugaredValue.call loc s (.simple v) inputs attrs nouts =
      .error ⟨loc, notCallableMsg⟩)
  ∧ (∀ m owner method s',
      ModuleValue.attr loc s m "forward" = .ok (.methodVal owner method, s') →
      SugaredValue.call loc s (.moduleVal m) inputs attrs nouts =
        .error ⟨loc, methodKwMsg⟩) := by
  have hlen : 0 < attrs.length := List.length_pos.mpr h
  refine ⟨?_, ?_, ?_, ?_, ?_, ?_⟩
  · intro obj
    rw [call_python_unfold]
    simp [PythonValue.call, hlen]
  · intro obj
    rw [call_constant_unfold]
    simp [PythonValue.call, hlen]
  · intro bname
    rw [call_builtin_unfold]
    simp [BuiltinFunction.call, hlen]
  · intro owner method
    rw [call_methodVal_unfold]
    have : attrs.length ≠ 0 := by omega
    simp [MethodValue.call, this]
  · intro v
    rw [call_simple_unfold]
  · intro m owner method s' hattr
    rw [call_moduleVal_unfold, hattr]
    show SugaredValue.call loc s' (.methodVal owner method) inputs attrs nouts =
      Except.error ⟨loc, methodKwMsg⟩
    rw [call_methodVal_unfold]
    have : attrs.length ≠ 0 := by omega
    simp [MethodValue.call, this]

/-- Witness for C4 (amended): a bound-method call carrying one keyword
argument fails with the keyword-arguments message. -/
theorem call_keyword_args_amended_witness :
    SugaredValue.call 0 initState (.methodVal emptyModule demoMethod) [1, 2] [("k", 0)] 1 =
      .error ⟨0, methodKwMsg⟩ :=
  (call_keyword_args_amended 0 initState [1, 2] [("k", 0)] 1
    (by decide)).2.2.2.1 emptyModule demoMethod

/-- C6 (code bug): the integer and float conjuncts of the claim hold (a
constant value wrapping the host integer 5 folds to a zero-dimensional
integer constant equal to 5; a float folds to a float constant; every
object outside the three isinstance guards fails with the inherited
default), but the boolean conjunct does not: py::isinstance of py::int_
is PyLong_Check, which is also true of host booleans, so a wrapped True
takes the first branch and is folded to an integer constant holding 1 —
never to the byte constant the claim describes, the byte branch being
dead for genuine booleans. Evaluated here at the failing input True and
at the inputs of the spec example. -/
theorem constant_asValue_bool_code_bug :
    ConstantPythonValue.asValue 0 initState (.boolObj true) =
      .ok (0, ⟨1, [.constantNode 0 (.intScalar 1) 0], []⟩) ∧
    ScalarTensor.intScalar 1 ≠ ScalarTensor.byteScalar true ∧
    ConstantPythonValue.asValue 0 initState (.intObj 5) =
      .ok (0, ⟨1, [.constantNode 0 (.intScalar 5) 0], []⟩) ∧
    ConstantPythonValue.asValue 0 initState (.floatObj 3) =
      .ok (0, ⟨1, [.constantNode 0 (.floatScalar 3) 0], []⟩) ∧
    ConstantPythonValue.asValue 0 initState .noneObj =
      .error ⟨0, defaultAsValueMsg⟩ :=
  ⟨rfl, by decide, rfl, rfl, rfl⟩

/-- C7: unrolledFor on a constant value wrapping a tuple returns one
constant value per element, the same number of them, preserving element
order; on any non-tuple wrapped object it fails with the inherited
default not-iterable failure. -/
theorem constant_unrolledFor_spec (loc : Nat) :
    (∀ elems : List PyObject, ConstantPythonValue.unrolledFor loc (.tupleObj elems) =
      .ok (elems.map SugaredValue.constant))
  ∧ (∀ elems : List PyObject, (elems.map SugaredValue.constant).length = elems.length)
  ∧ (∀ (elems : List PyObject) (i : Nat), (elems.map SugaredValue.constant)[i]? =
      (elems[i]?).map SugaredValue.constant)
  ∧ (∀ obj : PyObject, obj.isTuple = false →
      ConstantPythonValue.unrolledFor loc obj = .error ⟨loc, notIterableMsg⟩) := by
  refine ⟨fun elems => rfl, fun elems => List.length_map elems _, ?_, ?_⟩
  · intro elems i
    simp
  · intro obj hobj
    cases obj <;> simp_all [ConstantPythonValue.unrolledFor, PyObject.isTuple]

/-- Witness for C7 at the concrete input of the spec example: the tuple
with elements 1, 2, 3 unrolls into exactly 3 constant values in order,
and a non-tuple fails. -/
theorem constant_unrolledFor_spec_witness :
    ConstantPythonValue.unrolledFor 0 (.tupleObj [.intObj 1, .intObj 2, .intObj 3]) =
      .ok [.constant (.intObj 1), .constant (.intObj 2), .constant (.intObj 3)] ∧
    ConstantPythonValue.unrolledFor 0 (.intObj 7) = .error ⟨0, notIterableMsg⟩ :=
  ⟨(constant_unrolledFor_spec 0).1 [.intObj 1, .intObj 2, .intObj 3],
   (constant_unrolledFor_spec 0).2.2.2 (.intObj 7) rfl⟩

/-- Counterexample to C8 as stated: an external value wrapping a plain
host object with no member of the requested name is neither an
allow-listed namespace with a callable member nor a module with a module
member, and attr does fail, but with the message that the object has no
such attribute, not with the unsupported-attribute-lookup message. -/
theorem pythonValue_attr_counterexample :
    PythonValue.attr 0 (.otherObj "Foo" []) "bar" =
      .error ⟨0, objNoAttrMsg "bar"⟩ ∧
    objNoAttrMsg "bar" ≠ unsupportedLookupMsg (.otherObj "Foo" []) :=
  ⟨rfl, by decide⟩

/-- C8 (amended): attr on an external value always fails when the wrapped
object is not an allow-listed namespace with a callable member and not a
namespace object with a namespace member: with the
unsupported-attribute-lookup message when the member exists, and with the
object-has-no-attribute message when the member lookup itself fails; and
attr returns a builtin-function variant only when the wrapped object is
allow-listed with a callable member, and a new external value only when
both the wrapped object and the member are namespace objects. -/
theorem pythonValue_attr_amended (loc : Nat) (self : PyObject) (field : String) :
    (∀ mem, self.getMember field = some mem →
      ¬(isBuiltinModule self = true ∧ mem.isFunction = true) →
      ¬(self.isModule = true ∧ mem.isModule = true) →
      PythonValue.attr loc self field = .error ⟨loc, unsupportedLookupMsg self⟩)
  ∧ (self.getMember field = none →
      PythonValue.attr loc self field = .error ⟨loc, objNoAttrMsg field⟩)
  ∧ (∀ sv, PythonValue.attr loc self field = .ok sv →
      ∃ mem, self.getMember field = some mem ∧
        ((sv = .builtin field ∧ isBuiltinModule self = true ∧ mem.isFunction = true) ∨
         (sv = .python mem ∧ self.isModule = true ∧ mem.isModule = true))) := by
  refine ⟨?_, ?_, ?_⟩
  · intro mem hmem hnb hnm
    unfold PythonValue.attr pyGetattr
    rw [hmem]
    have hb : (isBuiltinModule self && mem.isFunction) = false := by
      cases hA : isBuiltinModule self <;> cases hB : PyObject.isFunction mem <;> simp_all
    have hm : (self.isModule && mem.isModule) = false := by
      cases hA : self.isModule <;> cases hB : PyObject.isModule mem <;> simp_all
    simp [hb, hm]
  · intro hnone
    unfold PythonValue.attr pyGetattr
    rw [hnone]
  · intro sv hsv
    cases hg : self.getMember field with
    | none =>
      have hred : PythonValue.attr loc self field =
          .error ⟨loc, objNoAttrMsg field⟩ := by
        unfold PythonValue.attr pyGetattr
        rw [hg]
      rw [hred] at hsv
      simp at hsv
    | some mem =>
      have hred : PythonValue.attr loc self field =
          (if (isBuiltinModule self && mem.isFunction) = true then
            Except.ok (SugaredValue.builtin field)
          else if (self.isModule && mem.isModule) = true then
            Except.ok (SugaredValue.python mem)
          else Except.error ⟨loc, unsupportedLookupMsg self⟩) := by
        unfold PythonValue.attr pyGetattr
        rw [hg]
      rw [hred] at hsv
      refine ⟨mem, rfl, ?_⟩
      by_cases hb : (isBuiltinModule self && mem.isFunction) = true
      · rw [if_pos hb] at hsv
        injection hsv with h1
        subst h1
        rcases Bool.and_eq_true_iff.mp hb with ⟨hb1, hb2⟩
        exact Or.inl ⟨rfl, hb1, hb2⟩
      · rw [if_neg hb] at hsv
        by_cases hm : (self.isModule && mem.isModule) = true
        · rw [if_pos hm] at hsv
          injection hsv with h1
          subst h1
          rcases Bool.and_eq_true_iff.mp hm with ⟨hm1, hm2⟩
          exact Or.inr ⟨rfl, hm1, hm2⟩
        · rw [if_neg hm] at hsv
          simp at hsv

/-- Witness for C8 (amended): a plain host object exposing a
non-callable, non-namespace member fails with the
unsupported-attribute-lookup message. -/
theorem pythonValue_attr_amended_witness :
    PythonValue.attr 0 (.otherObj "Bar" [("baz", .intObj 1)]) "baz" =
      .error ⟨0, unsupportedLookupMsg (.otherObj "Bar" [("baz", .intObj 1)])⟩ :=
  (pythonValue_attr_amended 0 (.otherObj "Bar" [("baz", .intObj 1)]) "baz").1
    (.intObj 1) rfl (by decide) (by decide)

/-- C10: under the uniqueness invariant on registered parameter names,
the membership query for parameters holds exactly when a registered
parameter of that name exists whose is-buffer flag is false, the
membership query for buffers holds exactly when one exists whose
is-buffer flag is true, and the two queries are never both true for the
same name. -/
theorem has_parameter_buffer_characterization (m : Module) (pname : String)
    (hNodup : (m.params.map NamedParameter.name).Nodup) :
    (m.has_parameter pname = true ↔
      ∃ p, p ∈ m.params ∧ p.name = pname ∧ p.is_buffer = false)
  ∧ (m.has_buffer pname = true ↔
      ∃ p, p ∈ m.params ∧ p.name = pname ∧ p.is_buffer = true)
  ∧ ¬(m.has_parameter pname = true ∧ m.has_buffer pname = true) := by
  have hinj := List.inj_on_of_nodup_map hNodup
  have hchar : ∀ b : Bool, (match m.find_parameter pname with
      | some r => r.is_buffer = b
      | none => False) ↔
      ∃ p, p ∈ m.params ∧ p.name = pname ∧ p.is_buffer = b := by
    intro b
    cases hf : m.find_parameter pname with
    | none =>
      simp only [iff_false_intro id, false_iff]
      rintro ⟨p, hp, hname, hbuf⟩
      have := List.find?_eq_none.mp hf p hp
      simp [hname] at this
    | some r =>
      have hmem := List.mem_of_find?_eq_some hf
      have hrname : r.name = pname := by
        have := List.find?_some hf
        simpa using this
      constructor
      · intro hb
        exact ⟨r, hmem, hrname, hb⟩
      · rintro ⟨p, hp, hname, hbuf⟩
        have : p = r := hinj hp hmem (by rw [hname, hrname])
        rw [← this]
        exact hbuf
  refine ⟨?_, ?_, ?_⟩
  · rw [← hchar false]
    unfold Module.has_parameter
    cases m.find_parameter pname <;> simp
  · rw [← hchar true]
    unfold Module.has_buffer
    cases m.find_parameter pname <;> simp
  · unfold Module.has_parameter Module.has_buffer
    cases m.find_parameter pname <;> simp

/-- Witness for C10 on a module with one true parameter and one buffer:
the parameter query holds for the parameter, the buffer query holds for
the buffer, and the queries are disjoint on the buffer name. -/
theorem has_parameter_buffer_characterization_witness :
    demoParamModule.has_parameter "weight" = true ∧
    demoParamModule.has_buffer "running_mean" = true ∧
    ¬(demoParamModule.has_parameter "running_mean" = true ∧
      demoParamModule.has_buffer "running_mean" = true) := by
  refine ⟨?_, ?_, ?_⟩
  · exact (has_parameter_buffer_characterization demoParamModule "weight"
      (by decide)).1.mpr ⟨⟨"weight", 0, false⟩, by decide, rfl, rfl⟩
  · exact (has_parameter_buffer_characterization demoParamModule "running_mean"
      (by decide)).2.1.mpr ⟨⟨"running_mean", 1, true⟩, by decide, rfl, rfl⟩
  · exact (has_parameter_buffer_characterization demoParamModule "running_mean"
      (by decide)).2.2

end TorchScriptInit
